import Mathlib

/-!
Shallow embedding of the ThingsBoard push tool (src/src/main.rs) in Lean 4.

The program reads a batch of JSON records from a file, optionally replaces
one nested numeric field per record with a freshly synthesized random value,
wraps the result with a timestamp and posts it over HTTP in a loop.

Modelling conventions:
* serde_json values become the inductive `Json` below.  serde_json stores a
  number either as i64/u64 (when `as_i64` succeeds) or as f64; we keep the
  two numeric subtypes as separate constructors (`int` and `float`, with
  floats modelled as rationals, which is exact for every operation the
  program performs on them: doubling and order comparison).
* `HashMap<String, Value>` becomes an association list with an overwriting
  `insertKV`; only lookup and emptiness of the map are observable.
* fallible Rust code (`Result`, plus panics such as an out-of-range string
  slice or an empty `gen_range` range) becomes `Option`, `none` meaning
  the attempt dies with an error or a panic; the error texts are elided.
* the process-wide random source (`rand::thread_rng`) is passed in as two
  oracle functions `genI`/`genF` for `gen_range` on integer and float
  ranges; theorems assume only that an oracle stays inside a well-formed
  requested range, which is the documented contract of `gen_range`.
  `gen_range` panics when the requested range is empty; the embedding
  returns `none` there.
* i64 arithmetic (`int_val * 2` in generate_random_value) wraps modulo
  2^64 into [-2^63, 2^63), matching release-build two's-complement
  semantics (a debug build would panic at the same inputs).
* network, clock and chrono formatting are external collaborators: the
  dispatcher is modelled up to the serialized request body, the wall-clock
  components are parameters, and chrono's `%Y-%m-%d %H:%M:%S` formatter is
  reproduced as `format_time` below.
-/

/-- JSON values as the program observes them through serde_json, with the
integer/float subtype split made explicit. -/
inductive Json where
  | null : Json
  | bool (b : Bool) : Json
  | int (n : Int) : Json
  | float (q : ℚ) : Json
  | str (s : String) : Json
  | arr (xs : List Json) : Json
  | obj (kvs : List (String × Json)) : Json

/-- Embeds serde_json Value.as_str: some only on strings. -/
def Json.as_str : Json → Option String
  | Json.str s => some s
  | _ => none

/-- Lookup in a JSON object map, as serde_json Map.get (keys are unique). -/
def lookupKV (kvs : List (String × Json)) (k : String) : Option Json :=
  match kvs with
  | [] => none
  | (k2, v) :: rest => if k2 = k then some v else lookupKV rest k

/-- Overwriting insert, as HashMap.insert / serde_json Map.insert: replaces
the value at an existing key, otherwise appends the pair. -/
def insertKV (kvs : List (String × Json)) (k : String) (v : Json) : List (String × Json) :=
  match kvs with
  | [] => [(k, v)]
  | (k2, v2) :: rest => if k2 = k then (k, v) :: rest else (k2, v2) :: insertKV rest k v

/-- Result of load_data_file: the optional random key and the record array. -/
structure DataFileResult where
  random_key : Option String
  data : List Json

/-- Embeds load_data_file from the point where the file content has been
parsed into a serde_json Value (file I/O and JSON parsing are external
collaborators; an unreadable or unparseable file fails before this point).
An array root is taken as the records with no random key; an object root
must hold an array under the data key and optionally a string under
random_key; anything else fails, as does an empty record array. -/
def load_data (v : Json) : Option DataFileResult :=
  match v with
  | Json.arr xs =>
      if xs.isEmpty then none else some { random_key := none, data := xs }
  | Json.obj kvs =>
      match lookupKV kvs "data" with
      | some (Json.arr xs) =>
          if xs.isEmpty then none
          else some { random_key := (lookupKV kvs "random_key").bind Json.as_str, data := xs }
      | _ => none
  | _ => none

/-- Wrapping i64 arithmetic: reduce an unbounded integer into
[-2^63, 2^63), the two's-complement value a release build computes
(a debug build panics on the same overflow). -/
def wrap64 (n : Int) : Int := (n + 2 ^ 63) % 2 ^ 64 - 2 ^ 63

/-- Embeds generate_random_value.  The thread-local random source is the
pair of oracles genI/genF standing for rng.gen_range on an integer and on a
float range.  Integer numbers draw from [1, max(1, wrap64(original*2))],
a range that is never empty; float numbers draw from [1.0, m] with
m = original*2 when original > 0 and m = 100.0 otherwise, and gen_range
panics (modelled as none) when that range is empty, i.e. when m < 1.0.
Non-numeric input is returned unchanged. -/
def generate_random_value (genI : Int → Int → Int) (genF : ℚ → ℚ → ℚ) :
    Json → Option Json
  | Json.int n =>
      let max_val := max 1 (wrap64 (n * 2))
      some (Json.int (genI 1 max_val))
  | Json.float q =>
      let max_val := if q > 0 then q * 2 else 100
      if (1 : ℚ) ≤ max_val then some (Json.float (genF 1 max_val)) else none
  | v => some v

/-- Embeds the body of the for loop of extract_telemetry_values over the
entries of the record object: when a random key is configured, the current
value is a nested object and the random key occurs in it, the nested object
is cloned with that field replaced by a synthesized value; otherwise the
pair is stored unchanged. -/
def extractEntries (genI : Int → Int → Int) (genF : ℚ → ℚ → ℚ)
    (random_key : Option String) :
    List (String × Json) → List (String × Json) → Option (List (String × Json))
  | [], values => some values
  | (key, value) :: rest, values =>
      match random_key, value with
      | some random_field, Json.obj nested_obj =>
          match lookupKV nested_obj random_field with
          | some random_value =>
              match generate_random_value genI genF random_value with
              | some new_random_value =>
                  extractEntries genI genF random_key rest
                    (insertKV values key
                      (Json.obj (insertKV nested_obj random_field new_random_value)))
              | none => none
          | none => extractEntries genI genF random_key rest (insertKV values key value)
      | _, _ => extractEntries genI genF random_key rest (insertKV values key value)

/-- Embeds extract_telemetry_values: fails on a non-object record and on an
empty extracted mapping. -/
def extract_telemetry_values (genI : Int → Int → Int) (genF : ℚ → ℚ → ℚ)
    (data : Json) (random_key : Option String) : Option (List (String × Json)) :=
  match data with
  | Json.obj kvs =>
      match extractEntries genI genF random_key kvs [] with
      | some values => if values.isEmpty then none else some values
      | none => none
  | _ => none

/-- Character of a decimal digit, as chrono prints one digit of a
zero-padded numeric field. -/
def digitChar (n : Nat) : Char := Char.ofNat (48 + n % 10)

/-- Two-digit zero-padded decimal rendering (chrono %m %d %H %M %S, whose
values never exceed two digits). -/
def pad2 (n : Nat) : List Char := [digitChar (n / 10), digitChar n]

/-- Four-digit zero-padded decimal rendering (chrono %Y for years up to
9999, the only years a wall clock produces). -/
def pad4 (n : Nat) : List Char :=
  [digitChar (n / 1000), digitChar (n / 100), digitChar (n / 10), digitChar n]

/-- Embeds the chrono call Local::now().format of the pattern
%Y-%m-%d %H:%M:%S used by send_telemetry, applied to the six wall-clock
components.  chrono itself is an external library; this reproduces its
zero-padded rendering of the pattern. -/
def format_time (y mo d h mi s : Nat) : String :=
  String.mk (pad4 y ++ ['-'] ++ pad2 mo ++ ['-'] ++ pad2 d ++ [' '] ++
    pad2 h ++ [':'] ++ pad2 mi ++ [':'] ++ pad2 s)

/-- Decides whether a string is of the shape YYYY-MM-DD HH:MM:SS: nineteen
characters, decimal digits everywhere except the fixed separators. -/
def isTimestampShape (t : String) : Bool :=
  match t.data with
  | [y1, y2, y3, y4, a, m1, m2, b, d1, d2, c, h1, h2, e, i1, i2, f, s1, s2] =>
      y1.isDigit && y2.isDigit && y3.isDigit && y4.isDigit && a == '-' &&
      m1.isDigit && m2.isDigit && b == '-' && d1.isDigit && d2.isDigit &&
      c == ' ' && h1.isDigit && h2.isDigit && e == ':' && i1.isDigit &&
      i2.isDigit && f == ':' && s1.isDigit && s2.isDigit
  | _ => false

/-- Embeds the TelemetryData struct: the three fields serde serializes, in
declaration order. -/
structure TelemetryData where
  ts : Nat
  values : List (String × Json)
  time : String

/-- Serialization of TelemetryData as derive(Serialize) emits it: a JSON
object holding every struct field under its own name, in declaration
order. -/
def TelemetryData.serialize (t : TelemetryData) : Json :=
  Json.obj [("ts", Json.int t.ts), ("values", Json.obj t.values),
    ("time", Json.str t.time)]

/-- Top-level field names of a serialized JSON object. -/
def Json.topKeys : Json → List String
  | Json.obj kvs => kvs.map Prod.fst
  | _ => []

/-- Embeds send_telemetry up to the point where the request body is fully
built: take the epoch-millisecond timestamp and the formatted local time
(both read from the external clock, passed here as values), extract the
telemetry values, overwrite their send_time field with the formatted time,
and assemble the TelemetryData that is then serialized and posted. -/
def build_telemetry (genI : Int → Int → Int) (genF : ℚ → ℚ → ℚ)
    (timestamp : Nat) (send_time : String) (data : Json)
    (random_key : Option String) : Option TelemetryData :=
  match extract_telemetry_values genI genF data random_key with
  | some values =>
      some { ts := timestamp,
             values := insertKV values "send_time" (Json.str send_time),
             time := send_time }
  | none => none

/-- Embeds the Config struct read from the environment: the server base
URL and the device access token.  The token is kept as its UTF-8 byte
sequence, which is what Rust string indexing operates on. -/
structure Config where
  server : List Nat
  device_token : List Nat

/-- Embeds load_config: look up the two environment variables, failing
when either is absent (env::var with context).  The environment is a map
from variable name to value; a Rust String is carried as its UTF-8 byte
sequence, which is what string indexing operates on. -/
def load_config (env : String → Option (List Nat)) : Option Config :=
  match env "server", env "device_token" with
  | some server, some device_token =>
      some { server := server, device_token := device_token }
  | _, _ => none

/-- Decides whether byte index i is a UTF-8 char boundary of the byte
sequence, as str::is_char_boundary: the end of the string is a boundary,
and so is any index holding a non-continuation byte (outside
[0x80, 0xC0)). -/
def isCharBoundary (bytes : List Nat) (i : Nat) : Bool :=
  if i = bytes.length then true
  else
    match bytes[i]? with
    | some b => decide (b < 128 ∨ 192 ≤ b)
    | none => false

/-- Embeds the Rust slice expression s[..i] on a string of the given
UTF-8 bytes: the first i bytes when i is in range and a char boundary,
otherwise a panic (none). -/
def slicePrefix (bytes : List Nat) (i : Nat) : Option (List Nat) :=
  if i ≤ bytes.length ∧ isCharBoundary bytes i then some (List.take i bytes)
  else none

/-- Embeds the startup display step of main right after load_config
succeeds: the expression [..8] applied to config.device_token. -/
def startupTokenDisplay (config : Config) : Option (List Nat) :=
  slicePrefix config.device_token 8

/-- Number of successful dispatch attempts in one round, given the
success/failure outcome of each per-record send attempt in order. -/
def roundSuccesses (outcomes : List Bool) : Nat := outcomes.count true

/-- Embeds the send loop of main as a fuel-indexed step function over the
controller state (current round index, sent_count).  One fuel unit is one
round: the for loop over the records adds one to sent_count per successful
send (outcomes round gives the per-record results of that round, one entry
per record), then the loop breaks exactly when count > 0 and sent_count
has reached count * record_count; otherwise it sleeps and starts the next
round.  some (rounds, sent) means the loop terminated after that many full
rounds with that final sent_count; none means the fuel ran out with the
loop still running. -/
def runLoop (count n : Nat) (outcomes : Nat → List Bool) :
    Nat → Nat → Nat → Option (Nat × Nat)
  | 0, _, _ => none
  | fuel + 1, round, sent =>
      let sent2 := sent + roundSuccesses (outcomes round)
      if 0 < count ∧ count * n ≤ sent2 then some (round + 1, sent2)
      else runLoop count n outcomes fuel (round + 1) sent2

/-- Concrete object-root input whose random_key field holds the empty
string. -/
def c7Input : Json :=
  Json.obj [("data", Json.arr [Json.null]), ("random_key", Json.str "")]

/-- Random oracle that always draws the lower end of an integer range: one
admissible behaviour of rng.gen_range. -/
def genLoI : Int → Int → Int := fun lo _ => lo

/-- Random oracle that always draws the lower end of a float range. -/
def genLoQ : ℚ → ℚ → ℚ := fun lo _ => lo

/-- Random oracle that always draws the upper end of an integer range. -/
def genHiI : Int → Int → Int := fun _ hi => hi

/-- Concrete record of the C2 scenario: a sensor object holding a numeric
field v and a string field unit. -/
def c2Record : Json :=
  Json.obj [("sensor", Json.obj [("v", Json.int 5), ("unit", Json.str "C")])]

theorem lookupKV_insertKV_self (kvs : List (String × Json)) (k : String) (v : Json) :
    lookupKV (insertKV kvs k v) k = some v := by
  induction kvs with
  | nil => simp [insertKV, lookupKV]
  | cons hd tl ih =>
      obtain ⟨k2, v2⟩ := hd
      by_cases h : k2 = k
      · simp [insertKV, h, lookupKV]
      · simp [insertKV, h, lookupKV, ih]

theorem lookupKV_insertKV_ne (kvs : List (String × Json)) (k k2 : String) (v : Json)
    (h : k2 ≠ k) : lookupKV (insertKV kvs k v) k2 = lookupKV kvs k2 := by
  have h2 : k ≠ k2 := Ne.symm h
  induction kvs with
  | nil => simp [insertKV, lookupKV, h2]
  | cons hd tl ih =>
      obtain ⟨k3, v3⟩ := hd
      by_cases h3 : k3 = k
      · subst h3
        simp [insertKV, lookupKV, h2]
      · simp only [insertKV, if_neg h3, lookupKV]
        by_cases h4 : k3 = k2 <;> simp [h4, ih]

/-- C7 counterexample: on an object input with a one-record data array and
random_key set to the empty string, load_data_file returns Some "" rather
than no random key: as_str accepts the empty string and no non-emptiness
filter exists in the code, so the claim that an empty-string random_key
yields no random key is false. -/
theorem c7_empty_string_counterexample :
    load_data c7Input = some { random_key := some "", data := [Json.null] } ∧
    (some "" : Option String) ≠ none := by
  exact ⟨rfl, by simp⟩

/-- C7 amended: for every object-shaped input whose data field is a
non-empty array, the loader returns the data array as the records, and the
random_key is the string content of the random_key field whenever that
field is present and is a JSON string — including the empty string, which
is propagated as Some "" rather than dropped. -/
theorem c7_object_shape_load (kvs : List (String × Json)) (xs : List Json)
    (hdata : lookupKV kvs "data" = some (Json.arr xs)) (hne : xs ≠ []) :
    load_data (Json.obj kvs) =
      some { random_key := (lookupKV kvs "random_key").bind Json.as_str, data := xs } := by
  have he : xs.isEmpty = false := by simp [List.isEmpty_iff, hne]
  simp [load_data, hdata, he]

/-- Witness for c7_object_shape_load at a concrete two-field object. -/
theorem c7_object_shape_load_witness :
    load_data (Json.obj [("data", Json.arr [Json.null]), ("random_key", Json.str "x")]) =
      some { random_key :=
               (lookupKV [("data", Json.arr [Json.null]), ("random_key", Json.str "x")]
                 "random_key").bind Json.as_str,
             data := [Json.null] } :=
  c7_object_shape_load [("data", Json.arr [Json.null]), ("random_key", Json.str "x")]
    [Json.null] rfl (by simp)

/-- C8: load_data_file succeeds exactly on an array root with at least one
element, or an object root whose data field holds a non-empty array; it
fails on every other parsed value — an object whose data field is missing
or not an array, a root that is neither array nor object, or an empty
record sequence.  (File I/O and JSON parse failures happen before this
function sees a value and are external.) -/
theorem c8_load_success_iff (v : Json) :
    (∃ r, load_data v = some r) ↔
      ((∃ xs, v = Json.arr xs ∧ xs ≠ []) ∨
       (∃ kvs xs, v = Json.obj kvs ∧ lookupKV kvs "data" = some (Json.arr xs) ∧ xs ≠ [])) := by
  cases v with
  | null => simp [load_data]
  | bool b => simp [load_data]
  | int n => simp [load_data]
  | float q => simp [load_data]
  | str s => simp [load_data]
  | arr xs =>
      by_cases h : xs = []
      · subst h; simp [load_data]
      · have he : xs.isEmpty = false := by simp [List.isEmpty_iff, h]
        simp [load_data, he, h]
  | obj kvs =>
      rcases hd : lookupKV kvs "data" with _ | val
      · simp [load_data, hd]
      · cases val with
        | arr xs =>
            by_cases h : xs = []
            · subst h; simp [load_data, hd]
            · have he : xs.isEmpty = false := by simp [List.isEmpty_iff, h]
              simp [load_data, hd, he, h]
        | null => simp [load_data, hd]
        | bool b => simp [load_data, hd]
        | int n => simp [load_data, hd]
        | float q => simp [load_data, hd]
        | str s => simp [load_data, hd]
        | obj kvs2 => simp [load_data, hd]

/-- C10: when the random_key field of an object-shaped input is present
but not a JSON string (its as_str is none), the loader succeeds with no
random key rather than failing. -/
theorem c10_nonstring_random_key (kvs : List (String × Json)) (xs : List Json) (v : Json)
    (hdata : lookupKV kvs "data" = some (Json.arr xs)) (hne : xs ≠ [])
    (hrk : lookupKV kvs "random_key" = some v) (hns : v.as_str = none) :
    load_data (Json.obj kvs) = some { random_key := none, data := xs } := by
  have he : xs.isEmpty = false := by simp [List.isEmpty_iff, hne]
  simp [load_data, hdata, he, hrk, hns]

/-- Witness for c10_nonstring_random_key with random_key holding the
number 5. -/
theorem c10_nonstring_random_key_witness :
    load_data (Json.obj [("data", Json.arr [Json.null]), ("random_key", Json.int 5)]) =
      some { random_key := none, data := [Json.null] } :=
  c10_nonstring_random_key [("data", Json.arr [Json.null]), ("random_key", Json.int 5)]
    [Json.null] (Json.int 5) rfl (by simp) rfl rfl

/-- C9: when both environment variables are set but the device token is
shorter than 8 bytes, or its byte index 8 falls inside a multi-byte UTF-8
character, load_config succeeds and the token display slice of main then
panics (the slice expression evaluates to none) instead of reporting a
graceful error. -/
theorem c9_token_slice_panics (env : String → Option (List Nat))
    (server tok : List Nat)
    (hs : env "server" = some server) (ht : env "device_token" = some tok)
    (hbad : tok.length < 8 ∨ isCharBoundary tok 8 = false) :
    load_config env = some { server := server, device_token := tok } ∧
    startupTokenDisplay { server := server, device_token := tok } = none := by
  refine ⟨by simp [load_config, hs, ht], ?_⟩
  have hb : isCharBoundary tok 8 = false := by
    rcases hbad with h | h
    · unfold isCharBoundary
      rw [if_neg (by omega)]
      have hn : tok[8]? = none := List.getElem?_eq_none (by omega)
      simp [hn]
    · exact h
  unfold startupTokenDisplay slicePrefix
  simp [hb]

/-- Witness for c9_token_slice_panics: a three-byte token abc. -/
theorem c9_token_slice_panics_witness :
    load_config (fun k => if k = "server" then some [115] else
        if k = "device_token" then some [97, 98, 99] else none) =
      some { server := [115], device_token := [97, 98, 99] } ∧
    startupTokenDisplay { server := [115], device_token := [97, 98, 99] } = none :=
  c9_token_slice_panics _ [115] [97, 98, 99] rfl rfl (Or.inl (by norm_num))

theorem genLoI_in_range (lo hi : Int) (h : lo ≤ hi) :
    lo ≤ genLoI lo hi ∧ genLoI lo hi ≤ hi := ⟨le_refl lo, h⟩

theorem genLoQ_in_range (lo hi : ℚ) (h : lo ≤ hi) :
    lo ≤ genLoQ lo hi ∧ genLoQ lo hi ≤ hi := ⟨le_refl lo, h⟩

theorem genHiI_in_range (lo hi : Int) (h : lo ≤ hi) :
    lo ≤ genHiI lo hi ∧ genHiI lo hi ≤ hi := ⟨h, le_refl hi⟩

/-- C6 counterexample: at the integer original value -(2^62) - 1 the i64
product original * 2 overflows and wraps to 2^63 - 2, so the upper bound
handed to gen_range is 2^63 - 2 rather than max(1, original*2) = 1; a
draw at the upper end of the actual range (genHiI, an admissible gen_range
outcome) returns 2^63 - 2, which lies far outside the claimed range
[1, max(1, original*2)] = [1, 1].  (A debug build panics on the same
input instead.) -/
theorem c6_overflow_counterexample :
    generate_random_value genHiI genLoQ (Json.int (-(2 ^ 62) - 1)) =
      some (Json.int (2 ^ 63 - 2)) ∧
    ¬((2 ^ 63 - 2 : Int) ≤ max 1 ((-(2 ^ 62) - 1) * 2)) := by
  constructor
  · rfl
  · norm_num

/-- C6 amended: for every integer original value whose doubling does not
overflow i64 (i.e. -(2^62) ≤ original ≤ 2^62 - 1), the synthesizer returns
an integer in the inclusive range [1, max(1, original*2)] under any
admissible random draw; in particular for original = 0 the range collapses
to [1, 1] so the result is exactly 1, and for original = 10 the result is
in [1, 20]. -/
theorem c6_integer_range (genI : Int → Int → Int) (genF : ℚ → ℚ → ℚ) (n : Int)
    (hgen : ∀ lo hi : Int, lo ≤ hi → lo ≤ genI lo hi ∧ genI lo hi ≤ hi)
    (hlo : -(2 ^ 62) ≤ n) (hhi : n ≤ 2 ^ 62 - 1) :
    ∃ k : Int, generate_random_value genI genF (Json.int n) = some (Json.int k) ∧
      1 ≤ k ∧ k ≤ max 1 (n * 2) := by
  have h62 : (2 : Int) ^ 62 = 4611686018427387904 := by norm_num
  have h63 : (2 : Int) ^ 63 = 9223372036854775808 := by norm_num
  have h64 : (2 : Int) ^ 64 = 18446744073709551616 := by norm_num
  have hw : wrap64 (n * 2) = n * 2 := by
    unfold wrap64
    rw [h63, h64]
    rw [h62] at hlo hhi
    omega
  have hle : (1 : Int) ≤ max 1 (n * 2) := le_max_left _ _
  refine ⟨genI 1 (max 1 (n * 2)), ?_, (hgen 1 _ hle).1, (hgen 1 _ hle).2⟩
  simp [generate_random_value, hw]

/-- Witness for c6_integer_range at original = 10 with the lower-end
oracle: the draw is 1, inside [1, 20]. -/
theorem c6_integer_range_witness :
    ∃ k : Int, generate_random_value genLoI genLoQ (Json.int 10) = some (Json.int k) ∧
      1 ≤ k ∧ k ≤ max 1 (10 * 2) :=
  c6_integer_range genLoI genLoQ 10 genLoI_in_range (by norm_num) (by norm_num)

/-- C5 counterexample: at the float original value 0.25 the code computes
the upper bound 0.5 (original > 0, so original*2), and gen_range(1.0..=0.5)
is an empty range, on which gen_range panics: the synthesizer does not
return any float at all, refuting the claim that every float original
yields a result in [1.0, upper_bound]. -/
theorem c5_empty_range_counterexample :
    generate_random_value genLoI genLoQ (Json.float (1 / 4)) = none := by
  simp only [generate_random_value]
  norm_num

/-- C5 amended: for every float original value such that the derived range
is non-empty — original ≤ 0 (fallback bound 100.0) or original ≥ 0.5 (so
original*2 ≥ 1.0) — the synthesizer returns a float in the inclusive range
[1.0, upper_bound] with upper_bound = original*2 when original > 0 and
100.0 otherwise; for 0 < original < 0.5 the range handed to gen_range is
empty and gen_range panics.  In particular for original = -3.0 the result
is in [1.0, 100.0] and for original = 4.0 it is in [1.0, 8.0]. -/
theorem c5_float_range (genI : Int → Int → Int) (genF : ℚ → ℚ → ℚ) (q : ℚ)
    (hgen : ∀ lo hi : ℚ, lo ≤ hi → lo ≤ genF lo hi ∧ genF lo hi ≤ hi)
    (hq : q ≤ 0 ∨ (1 : ℚ) ≤ q * 2) :
    ∃ x : ℚ, generate_random_value genI genF (Json.float q) = some (Json.float x) ∧
      1 ≤ x ∧ x ≤ (if q > 0 then q * 2 else 100) := by
  have hmax : (1 : ℚ) ≤ (if q > 0 then q * 2 else 100) := by
    rcases hq with h | h
    · rw [if_neg (by linarith)]
      norm_num
    · by_cases h2 : q > 0
      · rw [if_pos h2]; exact h
      · rw [if_neg h2]; norm_num
  refine ⟨genF 1 _, ?_, (hgen 1 _ hmax).1, (hgen 1 _ hmax).2⟩
  simp only [generate_random_value, if_pos hmax]

/-- Witness for c5_float_range at original = 4.0 with the lower-end
oracle: the draw is 1.0, inside [1.0, 8.0]. -/
theorem c5_float_range_witness :
    ∃ x : ℚ, generate_random_value genLoI genLoQ (Json.float 4) = some (Json.float x) ∧
      1 ≤ x ∧ x ≤ (if (4 : ℚ) > 0 then (4 : ℚ) * 2 else 100) :=
  c5_float_range genLoI genLoQ 4 genLoQ_in_range (Or.inr (by norm_num))

/-- C1 counterexample: the serialized request body of a concrete send
attempt has top-level fields ts, values and time — derive(Serialize) on
TelemetryData emits every struct field, and the struct declares a third
field time — so the body is not an object with only the two fields ts and
values. -/
theorem c1_extra_time_field_counterexample :
    Json.topKeys (TelemetryData.serialize
        { ts := 0, values := [("a", Json.null)], time := "t" }) ≠ ["ts", "values"] ∧
    "time" ∈ Json.topKeys (TelemetryData.serialize
        { ts := 0, values := [("a", Json.null)], time := "t" }) := by
  constructor
  · decide
  · decide

/-- C1 amended: for every send attempt, the serialized HTTP request body
is an object with exactly the three top-level fields ts (integer epoch
milliseconds), values (the transformed telemetry mapping) and time (the
formatted send time string), in that order. -/
theorem c1_body_top_level_fields (t : TelemetryData) :
    Json.topKeys (TelemetryData.serialize t) = ["ts", "values", "time"] := rfl

theorem digitChar_isDigit (n : Nat) : (digitChar n).isDigit = true := by
  have h : n % 10 < 10 := Nat.mod_lt _ (by norm_num)
  unfold digitChar
  set m := n % 10 with hm
  interval_cases m <;> decide

theorem format_time_shape (y mo d h mi s : Nat) :
    isTimestampShape (format_time y mo d h mi s) = true := by
  simp [isTimestampShape, format_time, pad4, pad2, digitChar_isDigit]

/-- C2: transforming the record with sensor holding v = 5 and unit = "C"
under random_key v yields exactly the mapping whose sensor value is the
nested object with unit still "C" and v replaced by the drawn integer,
which any admissible draw keeps in [1, 10]; the send_time field is always
present (an insert at that key overwrites any pre-existing field of the
name, as the third conjunct states for every prior mapping) and holds the
formatted local time, which is of the shape YYYY-MM-DD HH:MM:SS. -/
theorem c2_sensor_transform (genI : Int → Int → Int) (genF : ℚ → ℚ → ℚ)
    (ts y mo d h mi s : Nat)
    (hgen : ∀ lo hi : Int, lo ≤ hi → lo ≤ genI lo hi ∧ genI lo hi ≤ hi) :
    build_telemetry genI genF ts (format_time y mo d h mi s) c2Record (some "v") =
      some { ts := ts,
             values := [("sensor", Json.obj [("v", Json.int (genI 1 10)),
                           ("unit", Json.str "C")]),
                        ("send_time", Json.str (format_time y mo d h mi s))],
             time := format_time y mo d h mi s } ∧
    (1 ≤ genI 1 10 ∧ genI 1 10 ≤ 10) ∧
    (∀ (vals : List (String × Json)) (x : Json),
      lookupKV (insertKV vals "send_time" x) "send_time" = some x) ∧
    isTimestampShape (format_time y mo d h mi s) = true := by
  refine ⟨?_, ⟨(hgen 1 10 (by norm_num)).1, (hgen 1 10 (by norm_num)).2⟩,
    fun vals x => lookupKV_insertKV_self vals _ x, format_time_shape y mo d h mi s⟩
  rfl

/-- Witness for c2_sensor_transform with the lower-end oracle at a fixed
clock reading. -/
theorem c2_sensor_transform_witness :
    build_telemetry genLoI genLoQ 1700000000000 (format_time 2024 1 2 3 4 5)
        c2Record (some "v") =
      some { ts := 1700000000000,
             values := [("sensor", Json.obj [("v", Json.int (genLoI 1 10)),
                           ("unit", Json.str "C")]),
                        ("send_time", Json.str (format_time 2024 1 2 3 4 5))],
             time := format_time 2024 1 2 3 4 5 } ∧
    (1 ≤ genLoI 1 10 ∧ genLoI 1 10 ≤ 10) :=
  ⟨(c2_sensor_transform genLoI genLoQ 1700000000000 2024 1 2 3 4 5 genLoI_in_range).1,
   (c2_sensor_transform genLoI genLoQ 1700000000000 2024 1 2 3 4 5 genLoI_in_range).2.1⟩

/-- C3: with count = 2 and a 3-record batch where every dispatch attempt
succeeds, the send loop terminates after exactly 2 full rounds with
exactly 6 successful sends (some (2, 6)), for any fuel of at least 2
rounds; and with count = 0 the loop never terminates on its own: no
amount of fuel makes it return. -/
theorem c3_two_rounds_then_done (outcomes : Nat → List Bool) (fuel : Nat)
    (hall : ∀ r, outcomes r = [true, true, true]) (hfuel : 2 ≤ fuel) :
    runLoop 2 3 outcomes fuel 0 0 = some (2, 6) ∧
    (∀ (n : Nat) (oc : Nat → List Bool) (fuel2 round sent : Nat),
      runLoop 0 n oc fuel2 round sent = none) := by
  constructor
  · obtain ⟨k, rfl⟩ : ∃ k, fuel = k + 2 := ⟨fuel - 2, by omega⟩
    simp [runLoop, hall, roundSuccesses, List.count_cons]
  · intro n oc fuel2
    induction fuel2 with
    | zero => intro round sent; rfl
    | succ f ih =>
        intro round sent
        simp only [runLoop]
        rw [if_neg (by omega)]
        exact ih _ _

/-- Witness for c3_two_rounds_then_done with the all-success outcome
sequence and exactly 2 units of fuel. -/
theorem c3_two_rounds_then_done_witness :
    runLoop 2 3 (fun _ => [true, true, true]) 2 0 0 = some (2, 6) :=
  (c3_two_rounds_then_done (fun _ => [true, true, true]) 2 (fun _ => rfl)
    (by norm_num)).1

/-- C4: a round in which every dispatch attempt fails adds nothing to
sent_count, and with count > 0 and sent_count still below
count * record_count the loop does not terminate at that round: the step
continues into the next round with sent_count unchanged. -/
theorem c4_failed_round_continues (count n : Nat) (outcomes : Nat → List Bool)
    (fuel round sent : Nat)
    (hfail : outcomes round = List.replicate n false)
    (hcount : 0 < count) (hlt : sent < count * n) :
    sent + roundSuccesses (outcomes round) = sent ∧
    runLoop count n outcomes (fuel + 1) round sent =
      runLoop count n outcomes fuel (round + 1) sent := by
  have h0 : roundSuccesses (outcomes round) = 0 := by
    rw [hfail]
    simp [roundSuccesses, List.count_replicate]
  refine ⟨by omega, ?_⟩
  simp only [runLoop, h0, Nat.add_zero]
  rw [if_neg (by omega)]

/-- Witness for c4_failed_round_continues: count = 1, two records, an
all-failure round at round index 0 with sent_count 0. -/
theorem c4_failed_round_continues_witness :
    0 + roundSuccesses ((fun _ => [false, false]) 0) = 0 ∧
    runLoop 1 2 (fun _ => [false, false]) 1 0 0 =
      runLoop 1 2 (fun _ => [false, false]) 0 1 0 :=
  c4_failed_round_continues 1 2 (fun _ => [false, false]) 0 0 0 rfl
    (by norm_num) (by norm_num)
